import Mathlib

/-!
Shallow embedding of the outbound-message scheduling layer declared in
libraries/GCS_MAVLink/GCS.h (ArduPilot GCS_MAVLink library).

The header contains the authoritative inline code for: txspace(), lock()/locked(),
out_of_space_to_send(), the PAYLOAD_SIZE / HAVE_PAYLOAD_SPACE macros, the
send_message(pkt, entry) wrapper, the chan(ofs) accessor macro, and the
deferred_message_bucket array of 10 slots.  Method bodies that live in the
corresponding .cpp files (check_payload_size, packet_overhead_chan,
cap_message_interval, set_ap_message_interval, the bucket scan) are modelled
from the specification; each such definition carries a doc comment saying so.

Machine integers are modelled as Nat with explicit reduction mod 2^16 where the
declared C type is uint16_t and overflow matters.  The Bitmask<MSG_LAST> member
set of a bucket is modelled as the list of set message ids.
-/

/-- Framing overhead constant of the external MAVLink serialization library:
bytes of header/checksum around a MAVLink1 frame. -/
def MAVLINK1_PACKET_OVERHEAD : Nat := 8

/-- Framing overhead constant of the external MAVLink serialization library:
bytes of header/checksum around a MAVLink2 frame (extended framing). -/
def MAVLINK2_PACKET_OVERHEAD : Nat := 12

/-- Fixed signature trailer appended to a MAVLink2 frame when signing is
active (MAVLINK_SIGNATURE_BLOCK_LEN). -/
def MAVLINK_SIGNATURE_BLOCK_LEN : Nat := 13

/-- One slot of GCS_MAVLINK::deferred_message_bucket (GCS.h lines 873-877):
an interval, a last-sent timestamp from AP_HAL::millis16(), and the member
set (a Bitmask<MSG_LAST>, modelled as the list of set ap_message ids). -/
structure deferred_message_bucket_t where
  interval_ms : Nat
  last_sent_ms : Nat
  ap_message_ids : List Nat
deriving DecidableEq

/-- Sentinel for GCS_MAVLINK::sending_bucket_id: no_bucket_to_send is
(uint8_t)-1 (GCS.h line 878). -/
def no_bucket_to_send : Nat := 255

/-- State of one GCS_MAVLINK backend (one channel), restricted to the fields
the scheduling layer reads and writes: the _locked flag, the space reported by
the port (_port->txspace()), the framing/signing configuration that decides the
packet overhead, the two uint16 diagnostic counters, the deferred-message
bucket array, and the bucket-scan cursor state (GCS.h lines 873-882, 1117-1118,
1150). -/
structure GCS_MAVLINK where
  _locked : Bool
  port_txspace : Nat
  sending_mavlink1 : Bool
  signing_active : Bool
  out_of_space_to_send_count : Nat
  send_packet_count : Nat
  deferred_message_bucket : List deferred_message_bucket_t
  sending_bucket_id : Nat
  bucket_message_ids_to_send : List Nat
deriving DecidableEq

/-- GCS_MAVLINK::txspace (GCS.h lines 202-210): report zero when the channel
is locked, otherwise the port's transmit space clamped to at most 8192. -/
def GCS_MAVLINK.txspace (s : GCS_MAVLINK) : Nat :=
  if s._locked then 0 else min s.port_txspace 8192

/-- GCS_MAVLINK::lock(bool) (GCS.h lines 405-408): store the flag. -/
def GCS_MAVLINK.lock (s : GCS_MAVLINK) (l : Bool) : GCS_MAVLINK :=
  { s with _locked := l }

/-- GCS_MAVLINK::locked() (GCS.h lines 409-412). -/
def GCS_MAVLINK.locked (s : GCS_MAVLINK) : Bool := s._locked

/-- GCS_MAVLINK::out_of_space_to_send (GCS.h line 215): increments the uint16
out_of_space_to_send_count diagnostic counter (GCS.h line 1118). -/
def GCS_MAVLINK.out_of_space_to_send (s : GCS_MAVLINK) : GCS_MAVLINK :=
  { s with out_of_space_to_send_count := (s.out_of_space_to_send_count + 1) % 65536 }

/-- Modelled from the spec: the body of GCS_MAVLINK::packet_overhead_chan is
not under src (only its declaration, GCS.h line 780 region).  Per the spec the
per-channel protocol overhead depends on whether the channel uses the legacy
(MAVLink1) or extended (MAVLink2) wire-framing and whether cryptographic
signing is active, signing adding a fixed trailer size. -/
def GCS_MAVLINK.packet_overhead_chan (s : GCS_MAVLINK) : Nat :=
  if s.sending_mavlink1 then
    MAVLINK1_PACKET_OVERHEAD
  else
    MAVLINK2_PACKET_OVERHEAD +
      (if s.signing_active then MAVLINK_SIGNATURE_BLOCK_LEN else 0)

/-- Modelled from the spec: comm_get_txspace's body is not under src; it is the
spec's available_tx_bytes(channel) query, routed to the channel's txspace(). -/
def comm_get_txspace (s : GCS_MAVLINK) : Nat := s.txspace

/-- PAYLOAD_SIZE macro (GCS.h line 55): packet_overhead_chan(chan) plus the
message's wire length. -/
def PAYLOAD_SIZE (s : GCS_MAVLINK) (msg_len : Nat) : Nat :=
  s.packet_overhead_chan + msg_len

/-- HAVE_PAYLOAD_SPACE macro (GCS.h line 61): true when
comm_get_txspace(chan) >= PAYLOAD_SIZE(chan, id); otherwise the comma operator
bumps the out-of-space counter and the expression is false. -/
def HAVE_PAYLOAD_SPACE (s : GCS_MAVLINK) (msg_len : Nat) : Bool × GCS_MAVLINK :=
  if PAYLOAD_SIZE s msg_len ≤ comm_get_txspace s then
    (true, s)
  else
    (false, s.out_of_space_to_send)

/-- Modelled from the spec: GCS_MAVLINK::check_payload_size's body is not under
src (declared GCS.h line 212).  Per the spec's Admission Gate it returns true
iff available_tx_bytes >= payload length + channel protocol overhead, and on
false it increments the per-channel starved counter. -/
def GCS_MAVLINK.check_payload_size (s : GCS_MAVLINK) (max_payload_len : Nat) :
    Bool × GCS_MAVLINK :=
  if s.packet_overhead_chan + max_payload_len ≤ s.txspace then
    (true, s)
  else
    (false, s.out_of_space_to_send)

/-- GCS_MAVLINK::send_message(pkt, entry) (GCS.h lines 240-250): returns
without writing when check_payload_size rejects; otherwise the message is
finalized and written (the write is modelled by bumping send_packet_count,
the uint16 counter of GCS.h line 1117, and by the returned flag). -/
def GCS_MAVLINK.send_message (s : GCS_MAVLINK) (entry_max_msg_len : Nat) :
    Bool × GCS_MAVLINK :=
  match s.check_payload_size entry_max_msg_len with
  | (false, s1) => (false, s1)
  | (true, s1) => (true, { s1 with send_packet_count := (s1.send_packet_count + 1) % 65536 })

/-- The GCS frontend's backend bookkeeping (GCS.h lines 1363-1365): _num_gcs
counts the valid backends held in the _chan array. -/
structure GCS where
  _num_gcs : Nat
  _chan : List GCS_MAVLINK

/-- GCS_MAVLINK_CHAN_METHOD_DEFINITIONS macro (GCS.h lines 87-100): chan(ofs)
returns nullptr when ofs >= _num_gcs and otherwise the backend at index ofs. -/
def GCS.chan (g : GCS) (ofs : Nat) : Option GCS_MAVLINK :=
  if g._num_gcs ≤ ofs then none else g._chan.get? ofs

/-- GCS::num_gcs (GCS.h line 1239). -/
def GCS.num_gcs (g : GCS) : Nat := g._num_gcs

/-- Modelled from the spec: wraparound-safe elapsed time in the wrapping 16-bit
millisecond domain ((now - last) mod 2^16).  The comparisons live in the
bodies of deferred_message_to_send_index and find_next_bucket_to_send, which
are not under src; the header records that last_sent_ms comes from
AP_HAL::millis16() (GCS.h lines 857, 876). -/
def millis16_elapsed (now16 last16 : Nat) : Nat :=
  (now16 % 65536 + 65536 - last16 % 65536) % 65536

/-- Modelled from the spec: the due-ness test used by the bucket and deferred
message scans - a slot is due when the wrap-safe elapsed time since
last_sent_ms has reached its interval. -/
def deferred_due (now16 last16 interval_ms : Nat) : Bool :=
  interval_ms ≤ millis16_elapsed now16 last16

/-- Boolean membership in a bucket's id list (a Bitmask<MSG_LAST> bit test). -/
def hasId (id : Nat) : List Nat → Bool
  | [] => false
  | x :: xs => x == id || hasId id xs

/-- Clear an id from a bucket's id list (a Bitmask<MSG_LAST> bit clear). -/
def removeId (id : Nat) : List Nat → List Nat
  | [] => []
  | x :: xs => if x == id then removeId id xs else x :: removeId id xs

/-- Apply f to the element at the given index, when in range. -/
def modifyIdx {α : Type} (f : α → α) : Nat → List α → List α
  | _, [] => []
  | 0, a :: l => f a :: l
  | n + 1, a :: l => a :: modifyIdx f n l

/-- Index of the first element satisfying p, if any. -/
def findIdxP {α : Type} (p : α → Bool) : List α → Option Nat
  | [] => none
  | a :: l => if p a then some 0 else (findIdxP p l).map (· + 1)

/-- Distance between two naturals. -/
def natDist (a b : Nat) : Nat := max a b - min a b

/-- Index (and distance) of the bucket whose interval is closest to the
requested interval; ties go to the lowest index. -/
def closestAux (interval : Nat) : List deferred_message_bucket_t → Option (Nat × Nat)
  | [] => none
  | b :: bs =>
    match closestAux interval bs with
    | none => some (0, natDist interval b.interval_ms)
    | some (j, dj) =>
      if natDist interval b.interval_ms ≤ dj then
        some (0, natDist interval b.interval_ms)
      else
        some (j + 1, dj)

/-- Number of buckets whose member set contains the id. -/
def countBucketsWith (id : Nat) : List deferred_message_bucket_t → Nat
  | [] => 0
  | b :: bs => (if hasId id b.ap_message_ids then 1 else 0) + countBucketsWith id bs

/-- A bucket is in use with exactly the requested interval. -/
def bucket_matches (interval : Nat) (b : deferred_message_bucket_t) : Bool :=
  !b.ap_message_ids.isEmpty && (b.interval_ms == interval)

/-- A bucket slot is free (no members). -/
def bucket_free (b : deferred_message_bucket_t) : Bool :=
  b.ap_message_ids.isEmpty

/-- Add an id to a bucket's member set. -/
def consMember (id : Nat) (b : deferred_message_bucket_t) : deferred_message_bucket_t :=
  { b with ap_message_ids := id :: b.ap_message_ids }

/-- Modelled from the spec: remove_message_from_bucket's body is not under src
(declared GCS.h line 886).  Per the spec, reassignment of an id is an atomic
move, so removal clears the id's bit from whichever bucket holds it. -/
def remove_message_from_buckets (id : Nat) :
    List deferred_message_bucket_t → List deferred_message_bucket_t
  | [] => []
  | b :: bs =>
    { b with ap_message_ids := removeId id b.ap_message_ids } ::
      remove_message_from_buckets id bs

/-- Modelled from the spec: placement of an id into the bucket array (the body
of set_ap_message_interval is not under src).  Per spec 4.2: join an existing
in-use bucket with the matching interval, else allocate a free bucket slot,
else merge into the bucket with the closest existing interval (never drop). -/
def insert_message_into_buckets (id interval : Nat)
    (bs : List deferred_message_bucket_t) : List deferred_message_bucket_t :=
  match findIdxP (bucket_matches interval) bs with
  | some i => modifyIdx (consMember id) i bs
  | none =>
    match findIdxP bucket_free bs with
    | some i =>
      modifyIdx
        (fun b =>
          { interval_ms := interval
            last_sent_ms := b.last_sent_ms
            ap_message_ids := [id] })
        i bs
    | none =>
      match closestAux interval bs with
      | some jd => modifyIdx (consMember id) jd.1 bs
      | none => bs

/-- Modelled from the spec: GCS_MAVLINK::set_ap_message_interval's body is not
under src (declared GCS.h line 912).  It moves the id out of its current
bucket; interval 0 disables the message (it is left in no bucket), a non-zero
interval re-inserts it into the bucket array. -/
def GCS_MAVLINK.set_ap_message_interval (s : GCS_MAVLINK) (id interval_ms : Nat) :
    Bool × GCS_MAVLINK :=
  let bs := remove_message_from_buckets id s.deferred_message_bucket
  if interval_ms = 0 then
    (true, { s with deferred_message_bucket := bs })
  else
    (true, { s with deferred_message_bucket := insert_message_into_buckets id interval_ms bs })

/-- Modelled from the spec: set_mavlink_message_id_interval's body is not under
src (declared GCS.h lines 906-910); per its header comment it returns false
when there is no mapping from the mavlink ID to an ap_message
(mavlink_id_to_ap_message_id's MSG_LAST sentinel, modelled as none).  m is the
per-vehicle mavlink-id-to-ap_message mapping. -/
def set_mavlink_message_id_interval (m : Nat → Option Nat) (s : GCS_MAVLINK)
    (mavlink_id interval_ms : Nat) : Bool × GCS_MAVLINK :=
  match m mavlink_id with
  | none => (false, s)
  | some id => s.set_ap_message_interval id interval_ms

/-- Modelled from the spec: on a successful bucket send the candidate is marked
sent by clearing its bit from bucket_message_ids_to_send; when the sweep mask
drains, the sending bucket's last_sent_ms advances and the bucket search
restarts (sending_bucket_id returns to no_bucket_to_send). -/
def GCS_MAVLINK.mark_candidate_sent (s : GCS_MAVLINK) (now16 id : Nat) : GCS_MAVLINK :=
  let mask := removeId id s.bucket_message_ids_to_send
  if mask.isEmpty then
    { s with
      bucket_message_ids_to_send := []
      deferred_message_bucket :=
        modifyIdx (fun b => { b with last_sent_ms := now16 % 65536 })
          s.sending_bucket_id s.deferred_message_bucket
      sending_bucket_id := no_bucket_to_send }
  else
    { s with bucket_message_ids_to_send := mask }

/-- Modelled from the spec: do_try_send_message's body is not under src
(declared GCS.h line 935).  The candidate must pass the Admission Gate
(check_payload_size); on failure it is not marked sent and only the starved
counter changes, on success it is marked sent. -/
def GCS_MAVLINK.do_try_send_message (s : GCS_MAVLINK) (now16 id msg_len : Nat) :
    Bool × GCS_MAVLINK :=
  match s.check_payload_size msg_len with
  | (false, s1) => (false, s1)
  | (true, s1) => (true, s1.mark_candidate_sent now16 id)

/-- Minimum interval in milliseconds derived from the scheduler loop period:
a message rate of at most 0.8 times the loop rate means an interval of at
least loop_period_us / 800 milliseconds. -/
def min_interval_ms (loop_period_us : Nat) : Nat := loop_period_us / 800

/-- Modelled from the spec: GCS_MAVLINK::cap_message_interval's body is not
under src (declared GCS.h line 256, with the comment that the message rate
cannot be greater than 0.8 * SCHED_LOOP_RATE).  Zero (disabled) passes
through; a too-fast non-zero interval is clamped up to the minimum. -/
def cap_message_interval (loop_period_us interval_ms : Nat) : Nat :=
  if interval_ms = 0 then 0 else max interval_ms (min_interval_ms loop_period_us)

/-- A concrete channel state used by the witness instantiations. -/
def sampleChannel : GCS_MAVLINK :=
  { _locked := false
    port_txspace := 20
    sending_mavlink1 := false
    signing_active := false
    out_of_space_to_send_count := 3
    send_packet_count := 0
    deferred_message_bucket :=
      [{ interval_ms := 100, last_sent_ms := 0, ap_message_ids := [7] },
       { interval_ms := 1000, last_sent_ms := 0, ap_message_ids := [9] }]
    sending_bucket_id := 0
    bucket_message_ids_to_send := [7] }

theorem check_payload_size_eq (s : GCS_MAVLINK) (n : Nat) :
    s.check_payload_size n =
      if s.packet_overhead_chan + n ≤ s.txspace then (true, s)
      else (false, s.out_of_space_to_send) := rfl

/-- C1: the admission check (HAVE_PAYLOAD_SPACE) returns true iff the channel's
currently available transmit bytes (comm_get_txspace) are at least the
message's wire length plus the channel protocol overhead (which depends on
framing version and signing state via packet_overhead_chan), and send_message
performs the write exactly when that admission holds at the check. -/
theorem C1_admission_check_iff (s : GCS_MAVLINK) (msg_len entry_len : Nat) :
    ((HAVE_PAYLOAD_SPACE s msg_len).fst = true ↔
      s.packet_overhead_chan + msg_len ≤ comm_get_txspace s)
    ∧ ((s.send_message entry_len).fst = true ↔
      s.packet_overhead_chan + entry_len ≤ s.txspace) := by
  constructor
  · unfold HAVE_PAYLOAD_SPACE PAYLOAD_SIZE
    split <;> simp_all
  · by_cases h : s.packet_overhead_chan + entry_len ≤ s.txspace <;>
      simp [GCS_MAVLINK.send_message, check_payload_size_eq, h]

/-- C3: locking a channel makes txspace report zero, locking changes no other
scheduler state, locking is idempotent (locking an already-locked channel
equals locking it once), and the locked() predicate reflects exactly the last
lock(bool) call. -/
theorem C3_lock_semantics (s : GCS_MAVLINK) (b c : Bool) :
    (s.lock true).txspace = 0
    ∧ (s.lock b).lock b = s.lock b
    ∧ ((s.lock c).lock b).locked = b
    ∧ (s.lock b).locked = b
    ∧ (s.lock b).port_txspace = s.port_txspace
    ∧ (s.lock b).sending_mavlink1 = s.sending_mavlink1
    ∧ (s.lock b).signing_active = s.signing_active
    ∧ (s.lock b).out_of_space_to_send_count = s.out_of_space_to_send_count
    ∧ (s.lock b).send_packet_count = s.send_packet_count
    ∧ (s.lock b).deferred_message_bucket = s.deferred_message_bucket
    ∧ (s.lock b).sending_bucket_id = s.sending_bucket_id
    ∧ (s.lock b).bucket_message_ids_to_send = s.bucket_message_ids_to_send := by
  refine ⟨?_, rfl, rfl, rfl, rfl, rfl, rfl, rfl, rfl, rfl, rfl, rfl⟩
  simp [GCS_MAVLINK.lock, GCS_MAVLINK.txspace]

/-- C9: on an unlocked channel txspace is the minimum of the port-reported
space and 8192, hence never more than 8192 even when the driver reports
more. -/
theorem C9_txspace_clamped (s : GCS_MAVLINK) (h : s.locked = false) :
    s.txspace = min s.port_txspace 8192
    ∧ s.txspace ≤ 8192
    ∧ (8192 ≤ s.port_txspace → s.txspace = 8192) := by
  have hl : s._locked = false := h
  refine ⟨by simp [GCS_MAVLINK.txspace, hl], ?_, ?_⟩
  · simp [GCS_MAVLINK.txspace, hl]
  · intro hp
    simp [GCS_MAVLINK.txspace, hl]
    omega

theorem C9_txspace_clamped_witness :
    sampleChannel.locked = false
    ∧ (sampleChannel.txspace = min sampleChannel.port_txspace 8192
      ∧ sampleChannel.txspace ≤ 8192
      ∧ (8192 ≤ sampleChannel.port_txspace → sampleChannel.txspace = 8192)) :=
  ⟨by decide, C9_txspace_clamped sampleChannel (by decide)⟩

/-- C10: chan(ofs) returns null for any offset at or beyond the number of
configured backends, and an in-range offset yields the backend stored at that
index of the _chan array, never an out-of-bounds access. -/
theorem C10_chan_bounds (g : GCS) (ofs : Nat) (h : g._num_gcs ≤ g._chan.length) :
    (g._num_gcs ≤ ofs → g.chan ofs = none)
    ∧ (ofs < g._num_gcs →
        ∃ b, g.chan ofs = some b ∧ g._chan.get? ofs = some b) := by
  constructor
  · intro hge
    simp [GCS.chan, hge]
  · intro hlt
    have hlen : ofs < g._chan.length := lt_of_lt_of_le hlt h
    refine ⟨g._chan.get ⟨ofs, hlen⟩, ?_, ?_⟩
    · simp [GCS.chan, Nat.not_le.mpr hlt, List.get?_eq_get hlen]
    · exact List.get?_eq_get hlen

/-- A concrete GCS frontend used by the C10 witness. -/
def sampleGCS : GCS :=
  { _num_gcs := 1, _chan := [sampleChannel] }

theorem C10_chan_bounds_witness :
    ((sampleGCS._num_gcs ≤ 0 → sampleGCS.chan 0 = none)
      ∧ (0 < sampleGCS._num_gcs →
          ∃ b, sampleGCS.chan 0 = some b ∧ sampleGCS._chan.get? 0 = some b))
    ∧ ((sampleGCS._num_gcs ≤ 3 → sampleGCS.chan 3 = none)
      ∧ (3 < sampleGCS._num_gcs →
          ∃ b, sampleGCS.chan 3 = some b ∧ sampleGCS._chan.get? 3 = some b)) :=
  ⟨C10_chan_bounds sampleGCS 0 (by decide), C10_chan_bounds sampleGCS 3 (by decide)⟩

/-- C8: whenever the admission check fails (available transmit bytes below the
required bytes), HAVE_PAYLOAD_SPACE returns false and bumps the per-channel
out-of-space counter by exactly one (as a uint16), with no effect on any other
field; the failure merely records the diagnostic. -/
theorem C8_starved_counter (s : GCS_MAVLINK) (msg_len : Nat)
    (h : comm_get_txspace s < PAYLOAD_SIZE s msg_len) :
    (HAVE_PAYLOAD_SPACE s msg_len).fst = false
    ∧ (HAVE_PAYLOAD_SPACE s msg_len).snd = s.out_of_space_to_send
    ∧ (HAVE_PAYLOAD_SPACE s msg_len).snd.out_of_space_to_send_count
        = (s.out_of_space_to_send_count + 1) % 65536
    ∧ (s.out_of_space_to_send_count < 65535 →
        (HAVE_PAYLOAD_SPACE s msg_len).snd.out_of_space_to_send_count
          = s.out_of_space_to_send_count + 1)
    ∧ (HAVE_PAYLOAD_SPACE s msg_len).snd._locked = s._locked
    ∧ (HAVE_PAYLOAD_SPACE s msg_len).snd.port_txspace = s.port_txspace
    ∧ (HAVE_PAYLOAD_SPACE s msg_len).snd.sending_mavlink1 = s.sending_mavlink1
    ∧ (HAVE_PAYLOAD_SPACE s msg_len).snd.signing_active = s.signing_active
    ∧ (HAVE_PAYLOAD_SPACE s msg_len).snd.send_packet_count = s.send_packet_count
    ∧ (HAVE_PAYLOAD_SPACE s msg_len).snd.deferred_message_bucket
        = s.deferred_message_bucket
    ∧ (HAVE_PAYLOAD_SPACE s msg_len).snd.sending_bucket_id = s.sending_bucket_id
    ∧ (HAVE_PAYLOAD_SPACE s msg_len).snd.bucket_message_ids_to_send
        = s.bucket_message_ids_to_send := by
  have hn : ¬ PAYLOAD_SIZE s msg_len ≤ comm_get_txspace s := Nat.not_le.mpr h
  refine ⟨?_, ?_, ?_, ?_, ?_, ?_, ?_, ?_, ?_, ?_, ?_, ?_⟩ <;>
    (simp [HAVE_PAYLOAD_SPACE, hn, GCS_MAVLINK.out_of_space_to_send]; try omega)

theorem C8_starved_counter_witness :
    comm_get_txspace sampleChannel < PAYLOAD_SIZE sampleChannel 100
    ∧ (HAVE_PAYLOAD_SPACE sampleChannel 100).fst = false
    ∧ (HAVE_PAYLOAD_SPACE sampleChannel 100).snd.out_of_space_to_send_count
        = sampleChannel.out_of_space_to_send_count + 1 :=
  ⟨by decide,
   (C8_starved_counter sampleChannel 100 (by decide)).1,
   (C8_starved_counter sampleChannel 100 (by decide)).2.2.2.1 (by decide)⟩

/-- C2: when the bucket candidate fails admission (insufficient byte budget)
do_try_send_message reports failure, the candidate is not marked sent (the
sweep mask is unchanged, so it is retried on a subsequent call), the buckets -
including every last_sent_ms timestamp - are unchanged, and the rest of the
scheduler state (sending bucket cursor) is likewise unchanged. -/
theorem C2_admission_failure_frame (s : GCS_MAVLINK) (now16 id msg_len : Nat)
    (h : s.txspace < s.packet_overhead_chan + msg_len) :
    (s.do_try_send_message now16 id msg_len).fst = false
    ∧ (s.do_try_send_message now16 id msg_len).snd.deferred_message_bucket
        = s.deferred_message_bucket
    ∧ (s.do_try_send_message now16 id msg_len).snd.bucket_message_ids_to_send
        = s.bucket_message_ids_to_send
    ∧ (s.do_try_send_message now16 id msg_len).snd.sending_bucket_id
        = s.sending_bucket_id
    ∧ hasId id (s.do_try_send_message now16 id msg_len).snd.bucket_message_ids_to_send
        = hasId id s.bucket_message_ids_to_send := by
  have hn : ¬ s.packet_overhead_chan + msg_len ≤ s.txspace := Nat.not_le.mpr h
  refine ⟨?_, ?_, ?_, ?_, ?_⟩ <;>
    simp [GCS_MAVLINK.do_try_send_message, check_payload_size_eq, hn,
      GCS_MAVLINK.out_of_space_to_send]

theorem C2_admission_failure_frame_witness :
    sampleChannel.txspace < sampleChannel.packet_overhead_chan + 50
    ∧ ((sampleChannel.do_try_send_message 10 7 50).fst = false
      ∧ (sampleChannel.do_try_send_message 10 7 50).snd.deferred_message_bucket
          = sampleChannel.deferred_message_bucket
      ∧ (sampleChannel.do_try_send_message 10 7 50).snd.bucket_message_ids_to_send
          = sampleChannel.bucket_message_ids_to_send
      ∧ (sampleChannel.do_try_send_message 10 7 50).snd.sending_bucket_id
          = sampleChannel.sending_bucket_id
      ∧ hasId 7 (sampleChannel.do_try_send_message 10 7 50).snd.bucket_message_ids_to_send
          = hasId 7 sampleChannel.bucket_message_ids_to_send) :=
  ⟨by decide, C2_admission_failure_frame sampleChannel 10 7 50 (by decide)⟩

/-- C4: for every non-zero requested interval, cap_message_interval never
returns an interval shorter than the minimum derived from the scheduler's
calling rate (so the message rate stays at or below 0.8 times the loop rate);
an in-range interval passes through and a too-fast one is clamped up to the
minimum rather than rejected. -/
theorem C4_cap_message_interval (loop_period_us interval_ms : Nat)
    (h : interval_ms ≠ 0) :
    min_interval_ms loop_period_us ≤ cap_message_interval loop_period_us interval_ms
    ∧ (min_interval_ms loop_period_us ≤ interval_ms →
        cap_message_interval loop_period_us interval_ms = interval_ms)
    ∧ (interval_ms < min_interval_ms loop_period_us →
        cap_message_interval loop_period_us interval_ms
          = min_interval_ms loop_period_us)
    ∧ cap_message_interval loop_period_us interval_ms ≠ 0 := by
  refine ⟨?_, ?_, ?_, ?_⟩ <;> (simp [cap_message_interval, h]; try omega)

theorem C4_cap_message_interval_witness :
    (1 : Nat) ≠ 0
    ∧ (min_interval_ms 2500 ≤ cap_message_interval 2500 1
      ∧ (min_interval_ms 2500 ≤ 1 → cap_message_interval 2500 1 = 1)
      ∧ (1 < min_interval_ms 2500 →
          cap_message_interval 2500 1 = min_interval_ms 2500)
      ∧ cap_message_interval 2500 1 ≠ 0) :=
  ⟨by decide, C4_cap_message_interval 2500 1 (by decide)⟩

/-- C5: an interval-set request naming a mavlink message id with no ap_message
mapping in the catalog reports failure and leaves the channel state (bucket
and interval state included) entirely unchanged. -/
theorem C5_unknown_id_rejected (m : Nat → Option Nat) (s : GCS_MAVLINK)
    (mavlink_id interval_ms : Nat) (h : m mavlink_id = none) :
    (set_mavlink_message_id_interval m s mavlink_id interval_ms).fst = false
    ∧ (set_mavlink_message_id_interval m s mavlink_id interval_ms).snd = s := by
  constructor <;> simp [set_mavlink_message_id_interval, h]

theorem C5_unknown_id_rejected_witness :
    (fun _ : Nat => (none : Option Nat)) 42 = none
    ∧ ((set_mavlink_message_id_interval (fun _ => none) sampleChannel 42 100).fst = false
      ∧ (set_mavlink_message_id_interval (fun _ => none) sampleChannel 42 100).snd
          = sampleChannel) :=
  ⟨rfl, C5_unknown_id_rejected (fun _ => none) sampleChannel 42 100 rfl⟩

/-- C7: scheduler timestamps are compared in the wrapping 16-bit millisecond
domain with wraparound-safe subtraction: the elapsed value always equals
(now - last) mod 2^16 and lies below 2^16; in particular for last_sent = 65500
and now = 100 the elapsed time is 136 (not a negative or overflowed value), so
a bucket whose interval has elapsed across the wrap boundary is judged due. -/
theorem C7_wrap16_elapsed :
    millis16_elapsed 100 65500 = 136
    ∧ deferred_due 100 65500 136 = true
    ∧ deferred_due 100 65500 137 = false
    ∧ (∀ now16 last16 : Nat, millis16_elapsed now16 last16 < 65536)
    ∧ (∀ now16 last16 : Nat,
        (millis16_elapsed now16 last16 : Int)
          = ((now16 : Int) - (last16 : Int)) % 65536) := by
  refine ⟨by decide, by decide, by decide, ?_, ?_⟩
  · intro now16 last16
    unfold millis16_elapsed
    omega
  · intro now16 last16
    unfold millis16_elapsed
    omega

theorem hasId_cons_self (id : Nat) (l : List Nat) : hasId id (id :: l) = true := by
  simp [hasId]

theorem hasId_cons_ne (id j : Nat) (hne : j ≠ id) (l : List Nat) :
    hasId j (id :: l) = hasId j l := by
  cases hh : (id == j) with
  | true => exact absurd (eq_of_beq hh) (Ne.symm hne)
  | false => simp [hasId, hh]

theorem hasId_removeId (id : Nat) (l : List Nat) :
    hasId id (removeId id l) = false := by
  induction l with
  | nil => rfl
  | cons x xs ih =>
    simp only [removeId]
    split
    · exact ih
    · rename_i hx
      simp only [hasId, ih, Bool.or_false]
      simpa using hx

theorem hasId_removeId_ne (id j : Nat) (hne : j ≠ id) (l : List Nat) :
    hasId j (removeId id l) = hasId j l := by
  induction l with
  | nil => rfl
  | cons x xs ih =>
    simp only [removeId]
    split
    · rename_i hx
      have hxid : x = id := by simpa using hx
      subst hxid
      rw [ih, hasId_cons_ne x j hne]
    · simp [hasId, ih]

theorem countBucketsWith_remove_self (id : Nat)
    (bs : List deferred_message_bucket_t) :
    countBucketsWith id (remove_message_from_buckets id bs) = 0 := by
  induction bs with
  | nil => rfl
  | cons b bs ih =>
    simp [remove_message_from_buckets, countBucketsWith, hasId_removeId, ih]

theorem countBucketsWith_remove_ne (id j : Nat) (hne : j ≠ id)
    (bs : List deferred_message_bucket_t) :
    countBucketsWith j (remove_message_from_buckets id bs)
      = countBucketsWith j bs := by
  induction bs with
  | nil => rfl
  | cons b bs ih =>
    simp [remove_message_from_buckets, countBucketsWith,
      hasId_removeId_ne id j hne, ih]

theorem length_remove_message_from_buckets (id : Nat)
    (bs : List deferred_message_bucket_t) :
    (remove_message_from_buckets id bs).length = bs.length := by
  induction bs with
  | nil => rfl
  | cons b bs ih => simp [remove_message_from_buckets, ih]

theorem length_modifyIdx {α : Type} (f : α → α) (i : Nat) (l : List α) :
    (modifyIdx f i l).length = l.length := by
  induction l generalizing i with
  | nil => cases i <;> rfl
  | cons a l ih =>
    cases i with
    | zero => rfl
    | succ n => simp [modifyIdx, ih]

theorem countBucketsWith_modifyIdx_one (id : Nat)
    (f : deferred_message_bucket_t → deferred_message_bucket_t) (i : Nat)
    (bs : List deferred_message_bucket_t)
    (h0 : countBucketsWith id bs = 0) (hi : i < bs.length)
    (hf : ∀ b, hasId id (f b).ap_message_ids = true) :
    countBucketsWith id (modifyIdx f i bs) = 1 := by
  induction bs generalizing i with
  | nil => cases hi
  | cons b bs ih =>
    simp only [countBucketsWith] at h0
    have hb : hasId id b.ap_message_ids = false := by
      by_cases hh : hasId id b.ap_message_ids = true
      · rw [hh] at h0; simp at h0
      · simpa using hh
    rw [hb] at h0
    simp at h0
    cases i with
    | zero => simp [modifyIdx, countBucketsWith, hf b, h0]
    | succ n =>
      have hn : n < bs.length := Nat.lt_of_succ_lt_succ hi
      simp [modifyIdx, countBucketsWith, hb, ih n h0 hn]

theorem countBucketsWith_modifyIdx_congr (j : Nat)
    (f : deferred_message_bucket_t → deferred_message_bucket_t) (i : Nat)
    (bs : List deferred_message_bucket_t)
    (hf : ∀ b, hasId j (f b).ap_message_ids = hasId j b.ap_message_ids) :
    countBucketsWith j (modifyIdx f i bs) = countBucketsWith j bs := by
  induction bs generalizing i with
  | nil => cases i <;> rfl
  | cons b bs ih =>
    cases i with
    | zero => simp [modifyIdx, countBucketsWith, hf b]
    | succ n => simp [modifyIdx, countBucketsWith, ih n]

theorem findIdxP_lt {α : Type} (p : α → Bool) (l : List α) (i : Nat)
    (h : findIdxP p l = some i) : i < l.length := by
  induction l generalizing i with
  | nil => simp [findIdxP] at h
  | cons a l ih =>
    simp only [findIdxP] at h
    split at h
    · obtain rfl : 0 = i := Option.some.inj h
      simp
    · cases e : findIdxP p l with
      | none => rw [e] at h; simp at h
      | some i2 =>
        rw [e] at h
        simp only [Option.map_some'] at h
        obtain rfl : i2 + 1 = i := Option.some.inj h
        have := ih i2 e
        simp only [List.length_cons]
        omega

theorem countBucketsWith_modifyIdx_congrP (j : Nat)
    (p : deferred_message_bucket_t → Bool)
    (f : deferred_message_bucket_t → deferred_message_bucket_t) (i : Nat)
    (bs : List deferred_message_bucket_t)
    (hp : findIdxP p bs = some i)
    (hf : ∀ b, p b = true →
      hasId j (f b).ap_message_ids = hasId j b.ap_message_ids) :
    countBucketsWith j (modifyIdx f i bs) = countBucketsWith j bs := by
  induction bs generalizing i with
  | nil => simp [findIdxP] at hp
  | cons b bs ih =>
    simp only [findIdxP] at hp
    split at hp
    · rename_i hb
      obtain rfl : 0 = i := Option.some.inj hp
      simp [modifyIdx, countBucketsWith, hf b hb]
    · cases e : findIdxP p bs with
      | none => rw [e] at hp; simp at hp
      | some i2 =>
        rw [e] at hp
        simp only [Option.map_some'] at hp
        obtain rfl : i2 + 1 = i := Option.some.inj hp
        simp [modifyIdx, countBucketsWith, ih i2 e]

theorem closestAux_lt (interval : Nat) (bs : List deferred_message_bucket_t)
    (j d : Nat) (h : closestAux interval bs = some (j, d)) : j < bs.length := by
  induction bs generalizing j d with
  | nil => simp [closestAux] at h
  | cons b bs ih =>
    cases e : closestAux interval bs with
    | none =>
      simp only [closestAux, e, Option.some.injEq, Prod.mk.injEq] at h
      obtain ⟨h1, h2⟩ := h
      subst h1
      simp
    | some jd =>
      obtain ⟨j2, dj⟩ := jd
      simp only [closestAux, e] at h
      split at h
      · simp only [Option.some.injEq, Prod.mk.injEq] at h
        obtain ⟨h1, h2⟩ := h
        subst h1
        simp
      · simp only [Option.some.injEq, Prod.mk.injEq] at h
        obtain ⟨h1, h2⟩ := h
        have := ih j2 dj e
        simp only [List.length_cons]
        omega

theorem closestAux_cons_ne_none (interval : Nat)
    (b : deferred_message_bucket_t) (bs : List deferred_message_bucket_t) :
    closestAux interval (b :: bs) ≠ none := by
  cases e : closestAux interval bs with
  | none => simp [closestAux, e]
  | some jd =>
    obtain ⟨j, dj⟩ := jd
    simp only [closestAux, e]
    split <;> simp

theorem length_insert_message_into_buckets (id interval : Nat)
    (bs : List deferred_message_bucket_t) :
    (insert_message_into_buckets id interval bs).length = bs.length := by
  unfold insert_message_into_buckets
  cases h1 : findIdxP (bucket_matches interval) bs with
  | some i => simp [length_modifyIdx]
  | none =>
    cases h2 : findIdxP bucket_free bs with
    | some i => simp [length_modifyIdx]
    | none =>
      cases h3 : closestAux interval bs with
      | some jd => simp [length_modifyIdx]
      | none => rfl

theorem countBucketsWith_insert_self (id interval : Nat)
    (bs : List deferred_message_bucket_t)
    (h0 : countBucketsWith id bs = 0) (hne : bs ≠ []) :
    countBucketsWith id (insert_message_into_buckets id interval bs) = 1 := by
  unfold insert_message_into_buckets
  cases h1 : findIdxP (bucket_matches interval) bs with
  | some i =>
    exact countBucketsWith_modifyIdx_one id _ i bs h0 (findIdxP_lt _ bs i h1)
      (fun b => hasId_cons_self id b.ap_message_ids)
  | none =>
    cases h2 : findIdxP bucket_free bs with
    | some i =>
      exact countBucketsWith_modifyIdx_one id _ i bs h0 (findIdxP_lt _ bs i h2)
        (fun b => hasId_cons_self id [])
    | none =>
      cases h3 : closestAux interval bs with
      | some jd =>
        obtain ⟨j2, dj⟩ := jd
        exact countBucketsWith_modifyIdx_one id _ j2 bs h0
          (closestAux_lt interval bs j2 dj h3)
          (fun b => hasId_cons_self id b.ap_message_ids)
      | none =>
        cases bs with
        | nil => exact absurd rfl hne
        | cons b bs2 => exact absurd h3 (closestAux_cons_ne_none interval b bs2)

theorem countBucketsWith_insert_ne (id j interval : Nat) (hne : j ≠ id)
    (bs : List deferred_message_bucket_t) :
    countBucketsWith j (insert_message_into_buckets id interval bs)
      = countBucketsWith j bs := by
  unfold insert_message_into_buckets
  cases h1 : findIdxP (bucket_matches interval) bs with
  | some i =>
    exact countBucketsWith_modifyIdx_congr j _ i bs
      (fun b => hasId_cons_ne id j hne b.ap_message_ids)
  | none =>
    cases h2 : findIdxP bucket_free bs with
    | some i =>
      refine countBucketsWith_modifyIdx_congrP j bucket_free _ i bs h2 ?_
      intro b hb
      have hbl : b.ap_message_ids = [] := by
        simpa [bucket_free, List.isEmpty_iff] using hb
      rw [hbl]
      exact hasId_cons_ne id j hne []
    | none =>
      cases h3 : closestAux interval bs with
      | some jd =>
        exact countBucketsWith_modifyIdx_congr j _ jd.1 bs
          (fun b => hasId_cons_ne id j hne b.ap_message_ids)
      | none => rfl

/-- C6: the deferred_message_bucket array has the fixed capacity of 10 slots
declared in the header, and the operations never change that; setting a
non-disabled interval for a message id places it in exactly one bucket (when
all 10 slots hold other distinct intervals it is merged into an existing
bucket, never dropped), other ids keep their bucket membership count, and
disabling an id (interval 0) removes it from every bucket. -/
theorem C6_bucket_exclusivity (s : GCS_MAVLINK) (id v j : Nat)
    (hlen : s.deferred_message_bucket.length = 10) (hv : v ≠ 0) :
    countBucketsWith id
        (s.set_ap_message_interval id v).snd.deferred_message_bucket = 1
    ∧ (s.set_ap_message_interval id v).snd.deferred_message_bucket.length = 10
    ∧ (j ≠ id →
        countBucketsWith j
            (s.set_ap_message_interval id v).snd.deferred_message_bucket
          = countBucketsWith j s.deferred_message_bucket)
    ∧ countBucketsWith id
        (s.set_ap_message_interval id 0).snd.deferred_message_bucket = 0
    ∧ (s.set_ap_message_interval id 0).snd.deferred_message_bucket.length = 10 := by
  have hrl : (remove_message_from_buckets id s.deferred_message_bucket).length = 10 := by
    rw [length_remove_message_from_buckets, hlen]
  have hrne : remove_message_from_buckets id s.deferred_message_bucket ≠ [] := by
    intro e
    rw [e] at hrl
    simp at hrl
  refine ⟨?_, ?_, ?_, ?_, ?_⟩
  · simp only [GCS_MAVLINK.set_ap_message_interval, if_neg hv]
    exact countBucketsWith_insert_self id v _
      (countBucketsWith_remove_self id _) hrne
  · simp only [GCS_MAVLINK.set_ap_message_interval, if_neg hv]
    rw [length_insert_message_into_buckets, hrl]
  · intro hj
    simp only [GCS_MAVLINK.set_ap_message_interval, if_neg hv]
    rw [countBucketsWith_insert_ne id j v hj,
      countBucketsWith_remove_ne id j hj]
  · simp only [GCS_MAVLINK.set_ap_message_interval, if_pos rfl]
    exact countBucketsWith_remove_self id _
  · simp only [GCS_MAVLINK.set_ap_message_interval, if_pos rfl]
    exact hrl

/-- A channel whose 10 bucket slots are all in use with distinct intervals,
used by the C6 witness to exercise the merge-not-drop path. -/
def fullBucketChannel : GCS_MAVLINK :=
  { _locked := false
    port_txspace := 128
    sending_mavlink1 := false
    signing_active := false
    out_of_space_to_send_count := 0
    send_packet_count := 0
    deferred_message_bucket :=
      [⟨100, 0, [1]⟩, ⟨200, 0, [2]⟩, ⟨300, 0, [3]⟩, ⟨400, 0, [4]⟩,
       ⟨500, 0, [5]⟩, ⟨600, 0, [6]⟩, ⟨700, 0, [7]⟩, ⟨800, 0, [8]⟩,
       ⟨900, 0, [9]⟩, ⟨1000, 0, [10]⟩]
    sending_bucket_id := no_bucket_to_send
    bucket_message_ids_to_send := [] }

theorem C6_bucket_exclusivity_witness :
    (fullBucketChannel.deferred_message_bucket.length = 10 ∧ (55 : Nat) ≠ 0)
    ∧ (countBucketsWith 42
          (fullBucketChannel.set_ap_message_interval 42 55).snd.deferred_message_bucket = 1
      ∧ (fullBucketChannel.set_ap_message_interval 42 55).snd.deferred_message_bucket.length = 10
      ∧ ((1 : Nat) ≠ 42 →
          countBucketsWith 1
              (fullBucketChannel.set_ap_message_interval 42 55).snd.deferred_message_bucket
            = countBucketsWith 1 fullBucketChannel.deferred_message_bucket)
      ∧ countBucketsWith 42
          (fullBucketChannel.set_ap_message_interval 42 0).snd.deferred_message_bucket = 0
      ∧ (fullBucketChannel.set_ap_message_interval 42 0).snd.deferred_message_bucket.length = 10) :=
  ⟨⟨by decide, by decide⟩,
   C6_bucket_exclusivity fullBucketChannel 42 55 1 (by decide) (by decide)⟩
